import Mathlib

/-!
# Decal actor of bsf: sim-side / core-side synchronisation

A shallow embedding of `Source/Foundation/bsfCore/Renderer/BsDecal.h` and
`BsDecal.cpp`.

Conventions of the embedding:

* C++ `float` values are idealised as exact rationals (`ℚ`); no rounding, no NaN.
* `UINT32` values are natural numbers, reduced modulo `2 ^ 32` where the code
  computes one.
* An object is a record of its member variables; a member function takes the
  record and returns the updated record.  A member function that calls the
  renderer returns, next to the record, the list of renderer notifications it
  made, in call order.
* The sync buffer is a sequence of typed cells, one cell per serialized field;
  a `char*` cursor into the buffer is the list of cells that remain to be read
  (for a reader) or that were written so far (for a writer).  A read that meets
  a missing cell or a cell of another type has no defined result (`none`).
-/

namespace bs

/-! ## Math types -/

/-- Modelled from the spec: `Vector2` (Math/BsVector2.h, not part of the sources at hand),
a pair of floats. -/
structure Vector2 where
  x : ℚ
  y : ℚ
  deriving DecidableEq, Repr

/-- Modelled from the spec: `Vector3` (Math/BsVector3.h, not part of the sources at hand),
a triple of floats. -/
structure Vector3 where
  x : ℚ
  y : ℚ
  z : ℚ
  deriving DecidableEq, Repr

/-- Modelled from the spec: the constant `Vector2::ONE` (Math/BsVector2.h), the default
value of `DecalBase::mSize`. -/
def Vector2.ONE : Vector2 := ⟨1, 1⟩

/-- Modelled from the spec: the constant `Vector3::ONE` (Math/BsVector3.h). -/
def Vector3.ONE : Vector3 := ⟨1, 1, 1⟩

/-- Component-wise minimum of two points. -/
def Vector3.min (a b : Vector3) : Vector3 :=
  ⟨Min.min a.x b.x, Min.min a.y b.y, Min.min a.z b.z⟩

/-- Component-wise maximum of two points. -/
def Vector3.max (a b : Vector3) : Vector3 :=
  ⟨Max.max a.x b.x, Max.max a.y b.y, Max.max a.z b.z⟩

/-- Modelled from the spec: the affine part of `Matrix4` (Math/BsMatrix4.h, not part of
the sources at hand): three rows of four entries; the fourth row of an affine matrix is
`(0, 0, 0, 1)`. -/
structure Matrix4 where
  m00 : ℚ
  m01 : ℚ
  m02 : ℚ
  m03 : ℚ
  m10 : ℚ
  m11 : ℚ
  m12 : ℚ
  m13 : ℚ
  m20 : ℚ
  m21 : ℚ
  m22 : ℚ
  m23 : ℚ
  deriving DecidableEq, Repr

/-- Modelled from the spec: the constant `Matrix4::IDENTITY` (Math/BsMatrix4.h). -/
def Matrix4.IDENTITY : Matrix4 :=
  ⟨1, 0, 0, 0,
   0, 1, 0, 0,
   0, 0, 1, 0⟩

/-- Modelled from the spec: `Matrix4::multiplyAffine` (Math/BsMatrix4.h, not part of the
sources at hand), the image of a point under an affine matrix. -/
def Matrix4.multiplyAffine (m : Matrix4) (v : Vector3) : Vector3 :=
  ⟨m.m00 * v.x + m.m01 * v.y + m.m02 * v.z + m.m03,
   m.m10 * v.x + m.m11 * v.y + m.m12 * v.z + m.m13,
   m.m20 * v.x + m.m21 * v.y + m.m22 * v.z + m.m23⟩

/-- Modelled from the spec: `AABox` (Math/BsAABox.h, not part of the sources at hand), an
axis-aligned box given by its minimum and maximum corner, as the constructor
`AABox(min, max)` stores them. -/
structure AABox where
  mMinimum : Vector3
  mMaximum : Vector3
  deriving DecidableEq, Repr

/-- The eight corners of a box: every choice of minimum or maximum per axis. -/
def AABox.corners (b : AABox) : List Vector3 :=
  [⟨b.mMinimum.x, b.mMinimum.y, b.mMinimum.z⟩,
   ⟨b.mMaximum.x, b.mMinimum.y, b.mMinimum.z⟩,
   ⟨b.mMinimum.x, b.mMaximum.y, b.mMinimum.z⟩,
   ⟨b.mMaximum.x, b.mMaximum.y, b.mMinimum.z⟩,
   ⟨b.mMinimum.x, b.mMinimum.y, b.mMaximum.z⟩,
   ⟨b.mMaximum.x, b.mMinimum.y, b.mMaximum.z⟩,
   ⟨b.mMinimum.x, b.mMaximum.y, b.mMaximum.z⟩,
   ⟨b.mMaximum.x, b.mMaximum.y, b.mMaximum.z⟩]

/-- The smallest axis-aligned box around a non-empty list of points, given as its first
point and the rest. -/
def AABox.around (p : Vector3) (ps : List Vector3) : AABox :=
  ⟨ps.foldl Vector3.min p, ps.foldl Vector3.max p⟩

/-- Modelled from the spec: `AABox::transformAffine` (Math/BsAABox.cpp, not part of the
sources at hand).  The spec asks for the world-space axis-aligned box that exactly contains
the eight corners of the local volume after the transform: the box around the images of
the eight corners. -/
def AABox.transformAffine (b : AABox) (m : Matrix4) : AABox :=
  match b.corners.map m.multiplyAffine with
  | [] => b
  | p :: ps => AABox.around p ps

/-- A point lies in a box when each coordinate lies between the box's minimum and
maximum. -/
def AABox.contains (b : AABox) (v : Vector3) : Prop :=
  (b.mMinimum.x ≤ v.x ∧ v.x ≤ b.mMaximum.x) ∧
  (b.mMinimum.y ≤ v.y ∧ v.y ≤ b.mMaximum.y) ∧
  (b.mMinimum.z ≤ v.z ∧ v.z ≤ b.mMaximum.z)

instance (b : AABox) (v : Vector3) : Decidable (b.contains v) := by
  unfold AABox.contains
  infer_instance

/-- Modelled from the spec: `Transform` (Scene/BsTransform.h, not part of the sources at
hand), the position/rotation/scale of an actor.  The decal code observes a transform only
through `getScale()` and `getMatrix()`; the model carries these two results. -/
structure Transform where
  getScale : Vector3
  getMatrix : Matrix4
  deriving DecidableEq, Repr

/-- Modelled from the spec: the constant `Transform::IDENTITY` (Scene/BsTransform.h), the
value of a default-constructed transform: unit scale, identity matrix. -/
def Transform.IDENTITY : Transform := ⟨Vector3.ONE, Matrix4.IDENTITY⟩

/-! ## Scene actor, dirty flags, material handles -/

/-- Modelled from the spec: `SceneActor` (Scene/BsSceneActor.h, not part of the sources at
hand), the base-actor fields shared by both sides.  The model keeps the members the decal
code reads: the transform and the active flag.  A new actor has the identity transform and
is active. -/
structure SceneActor where
  mTransform : Transform := Transform.IDENTITY
  mActive : Bool := true
  deriving DecidableEq, Repr

/-- Modelled from the spec: the enum `ActorDirtyFlag` (Scene/BsSceneActor.h, not part of
the sources at hand), a bitset tagging which aspect of an actor changed; each flag is one
bit. -/
inductive ActorDirtyFlag where
  | Transform
  | Mobility
  | Active
  | Everything
  deriving DecidableEq, Repr

/-- Modelled from the spec: the cast `(UINT32)flag`, the bit of a dirty flag as the enum
(Scene/BsSceneActor.h) numbers it: `1 << 0`, `1 << 1`, `1 << 2`, `1 << 3`. -/
def ActorDirtyFlag.toUINT32 : ActorDirtyFlag → Nat
  | .Transform => 1
  | .Mobility => 2
  | .Active => 4
  | .Everything => 8

namespace ct

/-- Modelled from the spec: `SPtr<ct::Material>`, the render-side resolved material
reference: `none` is the null pointer, `some id` points to the core material `id`. -/
abbrev MaterialPtr := Option Nat

end ct

/-- Modelled from the spec: `HMaterial` (a resource handle, not part of the sources at
hand), the simulation-side material reference.  `isLoaded` is the result of
`isLoaded(false)`; `getCore` is the result of `->getCore()` on the loaded resource, its
resolved core form. -/
structure HMaterial where
  isLoaded : Bool
  getCore : ct.MaterialPtr
  deriving DecidableEq, Repr

/-- Modelled from the spec: the serialized form of a simulation-side material handle
(`coreSyncWriteElem` for a resource handle, CoreThread/BsCoreObjectSync.h, not part of the
sources at hand): the handle resolved for the render side, null when the handle is not
loaded, else its core form. -/
def HMaterial.resolve (h : HMaterial) : ct.MaterialPtr :=
  if h.isLoaded then h.getCore else none

/-! ## Sync buffer -/

/-- One cell of a sync buffer: a serialized field value together with its type. -/
inductive SyncElem where
  | u32 (v : Nat)
  | transform (t : Transform)
  | bool (b : Bool)
  | vector2 (v : Vector2)
  | float (f : ℚ)
  | material (m : ct.MaterialPtr)
  | aabox (b : AABox)
  deriving DecidableEq, Repr

/-- Modelled from the spec: `CoreSyncData` (CoreThread/BsCoreObject.h, not part of the
sources at hand), the buffer descriptor: the buffer and its length. -/
structure CoreSyncData where
  getBuffer : List SyncElem
  getBufferSize : Nat
  deriving DecidableEq, Repr

/-- Modelled from the spec: `rttiGetElemSize` for a plain value: the length of its
serialized form, counted in cells; every plain value takes one cell. -/
def rttiGetElemSize (_e : SyncElem) : Nat := 1

/-- Modelled from the spec: `rttiWriteElem` for a plain value: writes the value at the
cursor and returns the advanced cursor. -/
def rttiWriteElem (e : SyncElem) (memory : List SyncElem) : List SyncElem :=
  memory ++ [e]

/-- Modelled from the spec: `rttiReadElem` for a `UINT32`: reads the value at the cursor
and returns it with the advanced cursor. -/
def rttiReadElem : List SyncElem → Option (Nat × List SyncElem)
  | SyncElem.u32 v :: rest => some (v, rest)
  | _ => none

/-- Modelled from the spec: `coreSyncGetElemSize` for an object with a field enumeration:
the sum of the sizes of its fields, in enumeration order. -/
def coreSyncGetElemSize {Obj Fld : Type} (fields : List Fld) (get : Obj → Fld → SyncElem)
    (v : Obj) : Nat :=
  (fields.map (fun f => rttiGetElemSize (get v f))).sum

/-- Modelled from the spec: `coreSyncWriteElem` for an object with a field enumeration:
writes the fields at the cursor, in enumeration order, and returns the advanced cursor. -/
def coreSyncWriteElem {Obj Fld : Type} (fields : List Fld) (get : Obj → Fld → SyncElem)
    (v : Obj) (memory : List SyncElem) : List SyncElem :=
  fields.foldl (fun mem f => rttiWriteElem (get v f) mem) memory

/-- Modelled from the spec: `coreSyncReadElem` for an object with a field enumeration:
reads the fields from the cursor, in enumeration order, stores each into the object and
returns the object with the advanced cursor. -/
def coreSyncReadElem {Obj Fld : Type} (set : Obj → Fld → SyncElem → Option Obj) :
    List Fld → Obj → List SyncElem → Option (Obj × List SyncElem)
  | [], v, memory => some (v, memory)
  | _ :: _, _, [] => none
  | f :: fs, v, e :: rest =>
    match set v f e with
    | none => none
    | some w => coreSyncReadElem set fs w rest

/-- The fields of `SceneActor`, as its field enumeration names them. -/
inductive SceneActorField where
  | mTransform
  | mActive
  deriving DecidableEq, Repr

/-- Modelled from the spec: `SceneActor::rttiEnumFields`, the fixed order in which the
base-actor fields are visited. -/
def SceneActor.rttiEnumFields : List SceneActorField :=
  [.mTransform, .mActive]

/-- The serialized form of one base-actor field. -/
def SceneActor.getField (a : SceneActor) : SceneActorField → SyncElem
  | .mTransform => .transform a.mTransform
  | .mActive => .bool a.mActive

/-- Stores a deserialized value into one base-actor field. -/
def SceneActor.setField (a : SceneActor) : SceneActorField → SyncElem → Option SceneActor
  | .mTransform, .transform t => some { a with mTransform := t }
  | .mActive, .bool b => some { a with mActive := b }
  | _, _ => none

/-! ## The decal classes -/

/-- Modelled from the spec: the value of the member `mBounds` before the body of a
`DecalBase` constructor runs.  Every constructor overwrites it through `updateBounds`, so
no code path of the decal reads it; the model takes the degenerate box at the origin. -/
def AABox.initial : AABox := ⟨⟨0, 0, 0⟩, ⟨0, 0, 0⟩⟩

/-- The class `DecalBase` (BsDecal.h lines 25-55): a scene actor with a size, a maximum
distance and the derived bounds. -/
structure DecalBase extends SceneActor where
  mSize : Vector2 := Vector2.ONE
  mMaxDistance : ℚ := 10
  mBounds : AABox := AABox.initial
  deriving DecidableEq, Repr

/-- The member `DecalBase::updateBounds` (BsDecal.cpp lines 23-33). -/
def DecalBase.updateBounds (self : DecalBase) : DecalBase :=
  let localBounds : AABox :=
    ⟨⟨-self.mSize.x, -self.mSize.y, 0⟩, ⟨self.mSize.x, self.mSize.y, self.mMaxDistance⟩⟩
  let localBounds := localBounds.transformAffine self.mTransform.getMatrix
  { self with mBounds := localBounds }

/-- The constructor `DecalBase::DecalBase()` (BsDecal.cpp lines 12-15). -/
def DecalBase.newDefault : DecalBase :=
  DecalBase.updateBounds {}

/-- The constructor `DecalBase::DecalBase(size, maxDistance)` (BsDecal.cpp lines 17-21). -/
def DecalBase.new (size : Vector2) (maxDistance : ℚ) : DecalBase :=
  DecalBase.updateBounds { mSize := size, mMaxDistance := maxDistance }

/-- The template class `TDecal<Core>` (BsDecal.h lines 58-82): `DecalBase` with a material
reference whose type depends on the side. -/
structure TDecal (MaterialType : Type) extends DecalBase where
  mMaterial : MaterialType
  deriving DecidableEq, Repr

/-- The constructor `TDecal(material, size, maxDistance)` (BsDecal.h lines 65-67). -/
def TDecal.new {MaterialType : Type} (material : MaterialType) (size : Vector2)
    (maxDistance : ℚ) : TDecal MaterialType :=
  { DecalBase.new size maxDistance with mMaterial := material }

/-- The fields `TDecal<Core>::rttiEnumFields` visits. -/
inductive TDecalField where
  | mSize
  | mMaxDistance
  | mMaterial
  | mBounds
  deriving DecidableEq, Repr

/-- The member `TDecal<Core>::rttiEnumFields` (BsDecal.cpp lines 35-43): the fields in the
order the processor is applied to them. -/
def TDecal.rttiEnumFields : List TDecalField :=
  [.mSize, .mMaxDistance, .mMaterial, .mBounds]

namespace ct

/-- The class `ct::Decal` (BsDecal.h lines 142-165), the core-thread decal. -/
structure Decal extends TDecal MaterialPtr where
  mRendererId : Nat := 0
  deriving DecidableEq, Repr

end ct

/-- The class `bs::Decal` (BsDecal.h lines 95-137), the sim-thread decal.
`mCoreDirtyFlags` is the dirty-flags member of its `CoreObject` base. -/
structure Decal extends TDecal HMaterial where
  mCoreDirtyFlags : Nat
  deriving DecidableEq, Repr

/-! ## Renderer notifications -/

/-- The three decal notifications of the renderer. -/
inductive RendererNotification where
  | notifyDecalAdded
  | notifyDecalRemoved
  | notifyDecalUpdated
  deriving DecidableEq, Repr

/-- One call `gRenderer()->notifyDecal...(this)`: which notification, and the object
`this` points to as it is at the time of the call. -/
structure RendererCall where
  method : RendererNotification
  decal : ct.Decal
  deriving DecidableEq, Repr

/-! ## Members shared by both sides -/

/-- The accessor `DecalBase::getSize` (BsDecal.h lines 36-39). -/
def DecalBase.getSize (self : DecalBase) : Vector2 :=
  ⟨self.mSize.x * self.mTransform.getScale.x, self.mSize.y * self.mTransform.getScale.y⟩

/-- The accessor `DecalBase::getMaxDistance` (BsDecal.h line 45). -/
def DecalBase.getMaxDistance (self : DecalBase) : ℚ :=
  self.mMaxDistance * self.mTransform.getScale.z

/-- The accessor `TDecal::getMaterial` (BsDecal.h line 74). -/
def TDecal.getMaterial {MaterialType : Type} (self : TDecal MaterialType) : MaterialType :=
  self.mMaterial

/-! ## Sim-thread decal -/

/-- Modelled from the spec: `CoreObject::markCoreDirty` (CoreThread/BsCoreObject.h, not
part of the sources at hand): sets the given bits in the dirty flags. -/
def Decal.markCoreDirty (self : Decal) (flags : Nat) : Decal :=
  { self with mCoreDirtyFlags := (self.mCoreDirtyFlags ||| flags) % 2 ^ 32 }

/-- Modelled from the spec: `CoreObject::getCoreDirtyFlags`, the current dirty flags. -/
def Decal.getCoreDirtyFlags (self : Decal) : Nat :=
  self.mCoreDirtyFlags

/-- The member `Decal::_markCoreDirty` (BsDecal.cpp lines 106-109), the override the
mutators reach when they call `_markCoreDirty()` on a sim-thread decal; the default
argument of the declaration is `ActorDirtyFlag::Everything` (BsDecal.h line 119). -/
def Decal._markCoreDirty (self : Decal) (flags : ActorDirtyFlag := .Everything) : Decal :=
  self.markCoreDirty flags.toUINT32

/-- The member `updateBounds` of `DecalBase`, called on a sim-thread decal. -/
def Decal.updateBounds (self : Decal) : Decal :=
  { self with toDecalBase := self.toDecalBase.updateBounds }

/-- The constructor `Decal::Decal(material, size, maxDistance)` (BsDecal.cpp lines 45-50).
The initial dirty flags are set by the constructor of the `CoreObject` base, which is not
part of the sources at hand; they are a parameter. -/
def Decal.new (material : HMaterial) (size : Vector2) (maxDistance : ℚ)
    (coreDirtyFlags : Nat) : Decal :=
  Decal.updateBounds
    { TDecal.new material size maxDistance with mCoreDirtyFlags := coreDirtyFlags }

/-- The mutator `DecalBase::setSize` on a sim-thread decal (BsDecal.h line 33). -/
def Decal.setSize (self : Decal) (size : Vector2) : Decal :=
  let self := { self with mSize := size }
  let self := self._markCoreDirty
  self.updateBounds

/-- The mutator `DecalBase::setMaxDistance` on a sim-thread decal (BsDecal.h line 42). -/
def Decal.setMaxDistance (self : Decal) (distance : ℚ) : Decal :=
  let self := { self with mMaxDistance := distance }
  let self := self._markCoreDirty
  self.updateBounds

/-- The mutator `TDecal::setMaterial` on a sim-thread decal (BsDecal.h line 71). -/
def Decal.setMaterial (self : Decal) (material : HMaterial) : Decal :=
  let self := { self with mMaterial := material }
  self._markCoreDirty

/-- Modelled from the spec: `SceneActor::setTransform` (Scene/BsSceneActor.h, not part of
the sources at hand) on a sim-thread decal: stores the transform in the actor and marks
the actor dirty with the transform flag.  `DecalBase`, `TDecal` and `Decal` declare no
`setTransform` of their own (BsDecal.h), so a change of the transform runs the base-class
member, which reaches the decal only through the virtual `_markCoreDirty`. -/
def Decal.setTransform (self : Decal) (transform : Transform) : Decal :=
  let self := { self with mTransform := transform }
  self._markCoreDirty .Transform

/-- Modelled from the spec: `SceneActor::setActive` (Scene/BsSceneActor.h, not part of the
sources at hand) on a sim-thread decal: stores the active state and marks the actor dirty
with the active flag. -/
def Decal.setActive (self : Decal) (active : Bool) : Decal :=
  let self := { self with mActive := active }
  self._markCoreDirty .Active

/-- The serialized form of one decal field of a sim-thread decal. -/
def Decal.getField (self : Decal) : TDecalField → SyncElem
  | .mSize => .vector2 self.mSize
  | .mMaxDistance => .float self.mMaxDistance
  | .mMaterial => .material self.mMaterial.resolve
  | .mBounds => .aabox self.mBounds

/-- The member `Decal::syncToCore` (BsDecal.cpp lines 89-104).  The allocated buffer starts
without written cells; the returned descriptor holds the cells written. -/
def Decal.syncToCore (self : Decal) : CoreSyncData :=
  let size := 0
  let size := size + rttiGetElemSize (.u32 self.getCoreDirtyFlags)
  let size := size + coreSyncGetElemSize SceneActor.rttiEnumFields SceneActor.getField
    self.toSceneActor
  let size := size + coreSyncGetElemSize TDecal.rttiEnumFields Decal.getField self
  let buffer : List SyncElem := []
  let dataPtr := buffer
  let dataPtr := rttiWriteElem (.u32 self.getCoreDirtyFlags) dataPtr
  let dataPtr := coreSyncWriteElem SceneActor.rttiEnumFields SceneActor.getField
    self.toSceneActor dataPtr
  let dataPtr := coreSyncWriteElem TDecal.rttiEnumFields Decal.getField self dataPtr
  ⟨dataPtr, size⟩

/-! ## Core-thread decal -/

namespace ct

/-- The constructor `ct::Decal::Decal(material, size, maxDistance)` (BsDecal.cpp
lines 126-128). -/
def Decal.new (material : MaterialPtr) (size : Vector2) (maxDistance : ℚ) : Decal :=
  { TDecal.new material size maxDistance with }

/-- The member `updateBounds` of `DecalBase`, called on a core-thread decal. -/
def Decal.updateBounds (self : Decal) : Decal :=
  { self with toDecalBase := self.toDecalBase.updateBounds }

/-- The destructor `ct::Decal::~Decal` (BsDecal.cpp lines 130-133): the renderer calls it
makes. -/
def Decal.destroy (self : Decal) : List RendererCall :=
  [⟨.notifyDecalRemoved, self⟩]

/-- The member `ct::Decal::initialize` (BsDecal.cpp lines 135-141): the object after the
call and the renderer calls made.  `CoreObject::initialize` touches no decal member. -/
def Decal.initialize (self : Decal) : Decal × List RendererCall :=
  let self := self.updateBounds
  (self, [⟨.notifyDecalAdded, self⟩])

/-- Stores a deserialized value into one decal field of a core-thread decal. -/
def Decal.setField (self : Decal) : TDecalField → SyncElem → Option Decal
  | .mSize, .vector2 v => some { self with mSize := v }
  | .mMaxDistance, .float f => some { self with mMaxDistance := f }
  | .mMaterial, .material m => some { self with mMaterial := m }
  | .mBounds, .aabox b => some { self with mBounds := b }
  | _, _ => none

/-- The member `ct::Decal::syncToCore` (BsDecal.cpp lines 143-176): the object after the
call and the renderer calls made, in call order; `none` when a read has no defined
result. -/
def Decal.syncToCore (self : Decal) (data : CoreSyncData) :
    Option (Decal × List RendererCall) :=
  let dataPtr := data.getBuffer
  let oldIsActive := self.mActive
  match rttiReadElem dataPtr with
  | none => none
  | some (dirtyFlags, dataPtr) =>
    match coreSyncReadElem SceneActor.setField SceneActor.rttiEnumFields
        self.toSceneActor dataPtr with
    | none => none
    | some (actor, dataPtr) =>
      let self := { self with toSceneActor := actor }
      match coreSyncReadElem Decal.setField TDecal.rttiEnumFields self dataPtr with
      | none => none
      | some (self, _) =>
        let self := self.updateBounds
        if dirtyFlags = ActorDirtyFlag.Transform.toUINT32 then
          if self.mActive then
            some (self, [⟨.notifyDecalUpdated, self⟩])
          else
            some (self, [])
        else
          if oldIsActive ≠ self.mActive then
            if self.mActive then
              some (self, [⟨.notifyDecalAdded, self⟩])
            else
              some (self, [⟨.notifyDecalRemoved, self⟩])
          else
            some (self, [⟨.notifyDecalRemoved, self⟩, ⟨.notifyDecalAdded, self⟩])

end ct

/-- The member `Decal::createCore` (BsDecal.cpp lines 76-87). -/
def Decal.createCore (self : Decal) : ct.Decal :=
  let material : ct.MaterialPtr := none
  let material := if self.mMaterial.isLoaded then self.mMaterial.getCore else material
  ct.Decal.new material self.mSize self.mMaxDistance

/-! ## Buffer layout and traces -/

/-- The cells of a well-formed decal sync buffer: the dirty flags, then the base-actor
fields, then the decal fields, in the order of the field enumerations. -/
def syncLayout (dirtyFlags : Nat) (transform : Transform) (active : Bool) (size : Vector2)
    (maxDistance : ℚ) (material : ct.MaterialPtr) (bounds : AABox) : List SyncElem :=
  [.u32 dirtyFlags, .transform transform, .bool active,
   .vector2 size, .float maxDistance, .material material, .aabox bounds]

/-- The core-thread decal with the values of a sync buffer stored into its fields and the
bounds recomputed from them. -/
def ct.Decal.synced (self : ct.Decal) (transform : Transform) (active : Bool)
    (size : Vector2) (maxDistance : ℚ) (material : ct.MaterialPtr) : ct.Decal :=
  ct.Decal.updateBounds
    { self with mTransform := transform, mActive := active, mSize := size,
                mMaxDistance := maxDistance, mMaterial := material }

/-- The methods of a list of renderer calls, in call order. -/
def methods (calls : List RendererCall) : List RendererNotification :=
  calls.map RendererCall.method

/-- A run of `ct::Decal::syncToCore` over a sequence of sync buffers, one after the other:
the object after the last sync and all renderer calls made, in call order. -/
def ct.Decal.syncAll : ct.Decal → List CoreSyncData → Option (ct.Decal × List RendererCall)
  | self, [] => some (self, [])
  | self, data :: rest =>
    match self.syncToCore data with
    | none => none
    | some (self, calls) =>
      match ct.Decal.syncAll self rest with
      | none => none
      | some (self, more) => some (self, calls ++ more)

/-- The life of one core-thread decal: `initialize` once, then the given syncs, then the
destructor; the renderer calls of the whole life, in call order. -/
def ct.Decal.lifecycle (self : ct.Decal) (syncs : List CoreSyncData) :
    Option (List RendererCall) :=
  let started := ct.Decal.initialize self
  match ct.Decal.syncAll started.1 syncs with
  | none => none
  | some (last, calls) => some (started.2 ++ calls ++ last.destroy)

/-- The registration state machine of the spec (Unregistered / Registered) run over a
trace of notifications from the given state: an added notification sets Registered, a
removed notification clears it.  The result tells whether no added notification arrived
while the object was Registered. -/
def neverAddedWhileRegistered : Bool → List RendererNotification → Bool
  | _, [] => true
  | registered, .notifyDecalAdded :: rest =>
    !registered && neverAddedWhileRegistered true rest
  | _, .notifyDecalRemoved :: rest => neverAddedWhileRegistered false rest
  | registered, .notifyDecalUpdated :: rest => neverAddedWhileRegistered registered rest

/-- The bounds function: the bounds `updateBounds` stores for a given size, maximum
distance and transform, as the spec's invariant names it. -/
def boundsOf (size : Vector2) (maxDistance : ℚ) (transform : Transform) : AABox :=
  (DecalBase.updateBounds
    { mTransform := transform, mSize := size, mMaxDistance := maxDistance }).mBounds

/-- The values one well-formed decal sync buffer carries. -/
structure SyncValues where
  dirtyFlags : Nat
  transform : Transform
  active : Bool
  size : Vector2
  maxDistance : ℚ
  material : ct.MaterialPtr
  bounds : AABox
  deriving DecidableEq, Repr

/-- The well-formed sync buffer that carries the given values. -/
def SyncValues.toData (v : SyncValues) : CoreSyncData :=
  ⟨syncLayout v.dirtyFlags v.transform v.active v.size v.maxDistance v.material v.bounds, 7⟩

/-- The state of the registration state machine after a trace of notifications, from the
given state. -/
def registeredAfter : Bool → List RendererNotification → Bool
  | registered, [] => registered
  | _, .notifyDecalAdded :: rest => registeredAfter true rest
  | _, .notifyDecalRemoved :: rest => registeredAfter false rest
  | registered, .notifyDecalUpdated :: rest => registeredAfter registered rest

/-- A condition on a sequence of syncs, given the active state of the object before the
first one: no sync with dirty flags exactly `Transform` deactivates an active object, and
no sync with other dirty flags reaches an object that is inactive and stays inactive. -/
def keepsRegistration : Bool → List SyncValues → Bool
  | _, [] => true
  | active, v :: rest =>
    (if v.dirtyFlags = ActorDirtyFlag.Transform.toUINT32 then !(active && !v.active)
      else (active || v.active)) &&
    keepsRegistration v.active rest

/-- The reads of `ct::Decal::syncToCore` (BsDecal.cpp lines 145-152): the dirty flags
read, the object with the actor fields and the decal fields stored, and the cursor after
the last read; `none` when a read has no defined result. -/
def ct.Decal.syncToCoreRead (self : ct.Decal) (data : CoreSyncData) :
    Option (Nat × ct.Decal × List SyncElem) :=
  let dataPtr := data.getBuffer
  match rttiReadElem dataPtr with
  | none => none
  | some (dirtyFlags, dataPtr) =>
    match coreSyncReadElem SceneActor.setField SceneActor.rttiEnumFields
        self.toSceneActor dataPtr with
    | none => none
    | some (actor, dataPtr) =>
      let self := { self with toSceneActor := actor }
      match coreSyncReadElem ct.Decal.setField TDecal.rttiEnumFields self dataPtr with
      | none => none
      | some (self, dataPtr) => some (dirtyFlags, self, dataPtr)

/-! ## Texture import options -/

/-- Modelled from the spec: the enum `PixelFormat` (Image/BsPixelData.h, not part of the
sources at hand): the format the constructor of `TextureImportOptions` names, and every
other format by its code. -/
inductive PixelFormat where
  | PF_RGBA8
  | other (code : Nat)
  deriving DecidableEq, Repr

/-- Modelled from the spec: the enum `CubemapSourceType` (Importer/BsTextureImportOptions.h,
not part of the sources at hand), the cubemap source layouts. -/
inductive CubemapSourceType where
  | Single
  | Faces
  | Cylindrical
  | Spherical
  deriving DecidableEq, Repr

/-- The class `TextureImportOptions` (members as the constructor in
BsTextureImportOptions.cpp lines 8-11 lists them). -/
structure TextureImportOptions where
  mFormat : PixelFormat
  mGenerateMips : Bool
  mMaxMip : Nat
  mCPUCached : Bool
  mSRGB : Bool
  mCubemap : Bool
  mCubemapSourceType : CubemapSourceType
  deriving DecidableEq, Repr

/-- The constructor `TextureImportOptions::TextureImportOptions()`
(BsTextureImportOptions.cpp lines 8-11). -/
def TextureImportOptions.new : TextureImportOptions :=
  { mFormat := .PF_RGBA8, mGenerateMips := false, mMaxMip := 0, mCPUCached := false,
    mSRGB := false, mCubemap := false, mCubemapSourceType := .Faces }

/-- Modelled from the spec: `bs_shared_ptr_new<T>()` (the shared-pointer allocation of the
utility layer, not part of the sources at hand).  The objects shared pointers point to
are the entries of a store, a pointer is the index of its entry; the call constructs a
new object in a new entry and returns the pointer to it with the extended store. -/
def bs_shared_ptr_new {T : Type} (constructed : T) (store : List T) : Nat × List T :=
  (store.length, store ++ [constructed])

/-- The factory `TextureImportOptions::create` (BsTextureImportOptions.cpp lines 13-16):
the returned pointer and the store after the call. -/
def TextureImportOptions.create (store : List TextureImportOptions) :
    Nat × List TextureImportOptions :=
  bs_shared_ptr_new TextureImportOptions.new store

/-! ## Evaluation of the core-thread sync on a well-formed buffer -/

/-- On a well-formed buffer `ct::Decal::syncToCore` has a result: the fields are stored,
the bounds recomputed, and the renderer calls follow the three-way branch on the dirty
flags and the active state before and after. -/
theorem ct.Decal.syncToCore_syncLayout (self : ct.Decal) (data : CoreSyncData)
    (dirtyFlags : Nat) (transform : Transform) (active : Bool) (size : Vector2)
    (maxDistance : ℚ) (material : ct.MaterialPtr) (bounds : AABox)
    (h : data.getBuffer = syncLayout dirtyFlags transform active size maxDistance
      material bounds) :
    self.syncToCore data =
      some (self.synced transform active size maxDistance material,
        if dirtyFlags = 1 then
          if active = true then
            [⟨.notifyDecalUpdated, self.synced transform active size maxDistance material⟩]
          else []
        else if self.mActive ≠ active then
          if active = true then
            [⟨.notifyDecalAdded, self.synced transform active size maxDistance material⟩]
          else
            [⟨.notifyDecalRemoved, self.synced transform active size maxDistance material⟩]
        else
          [⟨.notifyDecalRemoved, self.synced transform active size maxDistance material⟩,
           ⟨.notifyDecalAdded, self.synced transform active size maxDistance material⟩]) := by
  simp only [ct.Decal.syncToCore, h, syncLayout, rttiReadElem, coreSyncReadElem,
    SceneActor.rttiEnumFields, SceneActor.setField, TDecal.rttiEnumFields,
    ct.Decal.setField, ActorDirtyFlag.toUINT32]
  simp only [ct.Decal.synced, ct.Decal.updateBounds, DecalBase.updateBounds]
  split_ifs <;> simp_all

/-- The sim-thread sync writes a well-formed buffer: the dirty flags, the actor fields and
the decal fields of the object, the material resolved for the render side. -/
theorem Decal.syncToCore_getBuffer (self : Decal) :
    self.syncToCore.getBuffer =
      syncLayout self.mCoreDirtyFlags self.mTransform self.mActive self.mSize
        self.mMaxDistance self.mMaterial.resolve self.mBounds := by
  rfl

/-- The bits of `Everything` survive `markCoreDirty`: dirty flags that had `Everything`
marked differ from the value `Transform`. -/
theorem or_everything_ne_transform (flags : Nat) :
    (flags ||| ActorDirtyFlag.Everything.toUINT32) % 2 ^ 32 ≠
      ActorDirtyFlag.Transform.toUINT32 := by
  intro h
  have h3 : ((flags ||| 8) % 2 ^ 32).testBit 3 = Nat.testBit 1 3 :=
    congrArg (fun n => Nat.testBit n 3) h
  rw [Nat.testBit_mod_two_pow, Nat.testBit_or] at h3
  have h8 : Nat.testBit 8 3 = true := by decide
  have h1 : Nat.testBit 1 3 = false := by decide
  rw [h8, h1] at h3
  simp at h3

/-- Marking `Everything` twice is marking it once. -/
theorem or_everything_idem (flags : Nat) :
    ((flags ||| ActorDirtyFlag.Everything.toUINT32) % 2 ^ 32 |||
      ActorDirtyFlag.Everything.toUINT32) % 2 ^ 32 =
      (flags ||| ActorDirtyFlag.Everything.toUINT32) % 2 ^ 32 := by
  apply Nat.eq_of_testBit_eq
  intro i
  simp only [Nat.testBit_mod_two_pow, Nat.testBit_or]
  cases decide (i < 32) <;> cases flags.testBit i <;>
    cases (ActorDirtyFlag.Everything.toUINT32).testBit i <;> rfl

/-! ## Notification policy of the core-thread sync -/

/-- C1: for every core-thread decal (whatever its active state before the sync) and every
well-formed sync buffer whose dirty flags are exactly `ActorDirtyFlag::Transform` and whose
active state is true, `ct::Decal::syncToCore` makes exactly one renderer call,
`notifyDecalUpdated`, and neither `notifyDecalAdded` nor `notifyDecalRemoved`. -/
theorem syncToCore_transform_only_notifies_updated (self : ct.Decal) (data : CoreSyncData)
    (transform : Transform) (size : Vector2) (maxDistance : ℚ)
    (material : ct.MaterialPtr) (bounds : AABox)
    (h : data.getBuffer = syncLayout ActorDirtyFlag.Transform.toUINT32 transform true size
      maxDistance material bounds) :
    self.syncToCore data =
      some (self.synced transform true size maxDistance material,
        [⟨.notifyDecalUpdated, self.synced transform true size maxDistance material⟩]) := by
  rw [ct.Decal.syncToCore_syncLayout self data _ _ _ _ _ _ _ h]
  simp [ActorDirtyFlag.toUINT32]

/-- C1, at a concrete input: a new core-thread decal receives a transform-only buffer that
keeps it active. -/
theorem syncToCore_transform_only_notifies_updated_witness :
    (⟨syncLayout 1 Transform.IDENTITY true ⟨2, 3⟩ 5 (some 7) AABox.initial, 7⟩ :
        CoreSyncData).getBuffer =
      syncLayout ActorDirtyFlag.Transform.toUINT32 Transform.IDENTITY true ⟨2, 3⟩ 5
        (some 7) AABox.initial ∧
    (ct.Decal.new none Vector2.ONE 10).syncToCore
        ⟨syncLayout 1 Transform.IDENTITY true ⟨2, 3⟩ 5 (some 7) AABox.initial, 7⟩ =
      some ((ct.Decal.new none Vector2.ONE 10).synced Transform.IDENTITY true ⟨2, 3⟩ 5
          (some 7),
        [⟨.notifyDecalUpdated,
          (ct.Decal.new none Vector2.ONE 10).synced Transform.IDENTITY true ⟨2, 3⟩ 5
            (some 7)⟩]) :=
  ⟨rfl, syncToCore_transform_only_notifies_updated _ _ _ _ _ _ _ rfl⟩

/-- C2: for every active sim-thread decal, `setSize` then `setMaterial` then one sync gives
one buffer whose single dirty-flags value is the old flags with `Everything` set, and
`ct::Decal::syncToCore` on that buffer, for a core-thread decal that was active, makes
exactly the renderer calls `notifyDecalRemoved`, `notifyDecalAdded`, in that order. -/
theorem setSize_setMaterial_sync_reregisters (sim : Decal) (size : Vector2)
    (material : HMaterial) (core : ct.Decal)
    (hsim : sim.mActive = true) (hcore : core.mActive = true) :
    ((sim.setSize size).setMaterial material).syncToCore.getBuffer =
      syncLayout ((sim.mCoreDirtyFlags ||| ActorDirtyFlag.Everything.toUINT32) % 2 ^ 32)
        sim.mTransform true size sim.mMaxDistance material.resolve
        (boundsOf size sim.mMaxDistance sim.mTransform) ∧
    core.syncToCore ((sim.setSize size).setMaterial material).syncToCore =
      some (core.synced sim.mTransform true size sim.mMaxDistance material.resolve,
        [⟨.notifyDecalRemoved,
            core.synced sim.mTransform true size sim.mMaxDistance material.resolve⟩,
         ⟨.notifyDecalAdded,
            core.synced sim.mTransform true size sim.mMaxDistance material.resolve⟩]) := by
  have hbuf : ((sim.setSize size).setMaterial material).syncToCore.getBuffer =
      syncLayout ((sim.mCoreDirtyFlags ||| ActorDirtyFlag.Everything.toUINT32) % 2 ^ 32)
        sim.mTransform true size sim.mMaxDistance material.resolve
        (boundsOf size sim.mMaxDistance sim.mTransform) := by
    rw [Decal.syncToCore_getBuffer]
    have hflags : ((sim.setSize size).setMaterial material).mCoreDirtyFlags =
        (sim.mCoreDirtyFlags ||| ActorDirtyFlag.Everything.toUINT32) % 2 ^ 32 :=
      or_everything_idem sim.mCoreDirtyFlags
    rw [hflags, ← hsim]
    rfl
  refine ⟨hbuf, ?_⟩
  rw [ct.Decal.syncToCore_syncLayout core _ _ _ _ _ _ _ _ hbuf]
  have hne : (sim.mCoreDirtyFlags ||| ActorDirtyFlag.Everything.toUINT32) % 2 ^ 32 ≠ 1 :=
    or_everything_ne_transform sim.mCoreDirtyFlags
  rw [if_neg hne]
  simp [hcore]

/-- C2, at a concrete input: a new active decal, resized and given a loaded material, synced
into its active core counterpart. -/
theorem setSize_setMaterial_sync_reregisters_witness :
    ((Decal.new ⟨false, none⟩ Vector2.ONE 10 0).mActive = true ∧
      (ct.Decal.new none Vector2.ONE 10).mActive = true) ∧
    (ct.Decal.new none Vector2.ONE 10).syncToCore
        (((Decal.new ⟨false, none⟩ Vector2.ONE 10 0).setSize ⟨2, 3⟩).setMaterial
          ⟨true, some 7⟩).syncToCore =
      some ((ct.Decal.new none Vector2.ONE 10).synced Transform.IDENTITY true ⟨2, 3⟩ 10
          (some 7),
        [⟨.notifyDecalRemoved,
            (ct.Decal.new none Vector2.ONE 10).synced Transform.IDENTITY true ⟨2, 3⟩ 10
              (some 7)⟩,
         ⟨.notifyDecalAdded,
            (ct.Decal.new none Vector2.ONE 10).synced Transform.IDENTITY true ⟨2, 3⟩ 10
              (some 7)⟩]) :=
  ⟨⟨rfl, rfl⟩,
    (setSize_setMaterial_sync_reregisters (Decal.new ⟨false, none⟩ Vector2.ONE 10 0)
      ⟨2, 3⟩ ⟨true, some 7⟩ (ct.Decal.new none Vector2.ONE 10) rfl rfl).2⟩

/-- C3, as stated, fails: an active core-thread decal that receives a buffer with dirty
flags exactly `Transform` and active state false makes no renderer call at all, so no
`notifyDecalRemoved`. -/
theorem syncToCore_transform_only_deactivation_silent :
    (ct.Decal.new none Vector2.ONE 10).mActive = true ∧
    Option.map (fun r => (r.1.mActive, methods r.2))
        ((ct.Decal.new none Vector2.ONE 10).syncToCore
          ⟨syncLayout ActorDirtyFlag.Transform.toUINT32 Transform.IDENTITY false
            Vector2.ONE 10 none AABox.initial, 7⟩) =
      some (false, []) := by
  refine ⟨rfl, ?_⟩
  rw [ct.Decal.syncToCore_syncLayout _ _ _ _ _ _ _ _ _ rfl]
  rfl

/-- C3, amended: for every core-thread decal that is active before the sync and every
well-formed buffer whose dirty flags differ from exactly `ActorDirtyFlag::Transform` and
whose active state is false, `ct::Decal::syncToCore` makes exactly one renderer call,
`notifyDecalRemoved`, and neither `notifyDecalUpdated` nor `notifyDecalAdded`. -/
theorem syncToCore_deactivation_notifies_removed (self : ct.Decal) (data : CoreSyncData)
    (dirtyFlags : Nat) (transform : Transform) (size : Vector2) (maxDistance : ℚ)
    (material : ct.MaterialPtr) (bounds : AABox)
    (hflags : dirtyFlags ≠ ActorDirtyFlag.Transform.toUINT32)
    (hactive : self.mActive = true)
    (h : data.getBuffer = syncLayout dirtyFlags transform false size maxDistance
      material bounds) :
    self.syncToCore data =
      some (self.synced transform false size maxDistance material,
        [⟨.notifyDecalRemoved, self.synced transform false size maxDistance material⟩]) := by
  rw [ct.Decal.syncToCore_syncLayout self data _ _ _ _ _ _ _ h]
  have hne : dirtyFlags ≠ 1 := hflags
  rw [if_neg hne]
  simp [hactive]

/-- C3 amended, at a concrete input: a new (active) core-thread decal receives a buffer
with the `Active` flag and active state false. -/
theorem syncToCore_deactivation_notifies_removed_witness :
    (ActorDirtyFlag.Active.toUINT32 ≠ ActorDirtyFlag.Transform.toUINT32 ∧
      (ct.Decal.new none Vector2.ONE 10).mActive = true) ∧
    (ct.Decal.new none Vector2.ONE 10).syncToCore
        ⟨syncLayout ActorDirtyFlag.Active.toUINT32 Transform.IDENTITY false Vector2.ONE 10
          none AABox.initial, 7⟩ =
      some ((ct.Decal.new none Vector2.ONE 10).synced Transform.IDENTITY false
          Vector2.ONE 10 none,
        [⟨.notifyDecalRemoved,
          (ct.Decal.new none Vector2.ONE 10).synced Transform.IDENTITY false
            Vector2.ONE 10 none⟩]) :=
  ⟨⟨by decide, rfl⟩,
    syncToCore_deactivation_notifies_removed (ct.Decal.new none Vector2.ONE 10)
      ⟨syncLayout ActorDirtyFlag.Active.toUINT32 Transform.IDENTITY false Vector2.ONE 10
        none AABox.initial, 7⟩
      ActorDirtyFlag.Active.toUINT32 Transform.IDENTITY Vector2.ONE 10 none
      AABox.initial (by decide) rfl rfl⟩

/-- C4, the code at the failing input: a core-thread decal that is inactive (it was
deactivated by an earlier sync) receives a buffer with the `Everything` flag and active
state false.  It is inactive before and after the sync, and the sync calls
`notifyDecalRemoved` and then `notifyDecalAdded` on its behalf. -/
theorem syncToCore_inactive_unchanged_reregisters :
    ((ct.Decal.new none Vector2.ONE 10).synced Transform.IDENTITY false Vector2.ONE 10
        none).mActive = false ∧
    Option.map (fun r => (r.1.mActive, methods r.2))
        (((ct.Decal.new none Vector2.ONE 10).synced Transform.IDENTITY false Vector2.ONE
            10 none).syncToCore
          ⟨syncLayout ActorDirtyFlag.Everything.toUINT32 Transform.IDENTITY false
            ⟨2, 3⟩ 10 none AABox.initial, 7⟩) =
      some (false, [.notifyDecalRemoved, .notifyDecalAdded]) := by
  refine ⟨rfl, ?_⟩
  rw [ct.Decal.syncToCore_syncLayout _ _ _ _ _ _ _ _ _ rfl]
  rfl

/-- The registration state machine run over two traces in a row. -/
theorem neverAddedWhileRegistered_append (xs ys : List RendererNotification) (r : Bool) :
    neverAddedWhileRegistered r (xs ++ ys) =
      (neverAddedWhileRegistered r xs &&
        neverAddedWhileRegistered (registeredAfter r xs) ys) := by
  induction xs generalizing r with
  | nil => simp [neverAddedWhileRegistered, registeredAfter]
  | cons x xs ih =>
    cases x <;> simp [neverAddedWhileRegistered, registeredAfter, ih, Bool.and_assoc]

/-- A run of syncs that keeps the registration, started on an object that is Unregistered
whenever it is inactive: every sync has a result, and no added notification arrives while
the object is Registered. -/
theorem syncAll_keepsRegistration (syncs : List SyncValues) :
    ∀ (self : ct.Decal) (registered : Bool),
      (self.mActive = false → registered = false) →
      keepsRegistration self.mActive syncs = true →
      ∃ last calls,
        ct.Decal.syncAll self (syncs.map SyncValues.toData) = some (last, calls) ∧
        neverAddedWhileRegistered registered (methods calls) = true := by
  induction syncs with
  | nil =>
    intro self registered _ _
    exact ⟨self, [], rfl, rfl⟩
  | cons v rest ih =>
    intro self registered hinv hkeep
    simp only [keepsRegistration, Bool.and_eq_true] at hkeep
    obtain ⟨hstep, hrest⟩ := hkeep
    have hsync := ct.Decal.syncToCore_syncLayout self v.toData v.dirtyFlags v.transform
      v.active v.size v.maxDistance v.material v.bounds rfl
    generalize hcalls : (if v.dirtyFlags = 1 then
          if v.active = true then
            [(⟨.notifyDecalUpdated,
              self.synced v.transform v.active v.size v.maxDistance v.material⟩ :
                RendererCall)]
          else []
        else if self.mActive ≠ v.active then
          if v.active = true then
            [⟨.notifyDecalAdded,
              self.synced v.transform v.active v.size v.maxDistance v.material⟩]
          else
            [⟨.notifyDecalRemoved,
              self.synced v.transform v.active v.size v.maxDistance v.material⟩]
        else
          [⟨.notifyDecalRemoved,
              self.synced v.transform v.active v.size v.maxDistance v.material⟩,
           ⟨.notifyDecalAdded,
              self.synced v.transform v.active v.size v.maxDistance v.material⟩]) =
        calls1 at hsync
    have hfacts : neverAddedWhileRegistered registered (methods calls1) = true ∧
        (v.active = false → registeredAfter registered (methods calls1) = false) := by
      subst hcalls
      have h1 : ActorDirtyFlag.Transform.toUINT32 = 1 := rfl
      rw [h1] at hstep
      by_cases hf : v.dirtyFlags = 1
      · rw [if_pos hf] at hstep
        rw [if_pos hf]
        revert hinv hstep
        cases self.mActive <;> cases v.active <;> cases registered <;>
          simp [methods, neverAddedWhileRegistered, registeredAfter]
      · rw [if_neg hf] at hstep
        rw [if_neg hf]
        revert hinv hstep
        cases self.mActive <;> cases v.active <;> cases registered <;>
          simp [methods, neverAddedWhileRegistered, registeredAfter]
    have hactive :
        (self.synced v.transform v.active v.size v.maxDistance v.material).mActive =
          v.active := rfl
    obtain ⟨last, calls, hall, hnever⟩ :=
      ih (self.synced v.transform v.active v.size v.maxDistance v.material)
        (registeredAfter registered (methods calls1))
        (by rw [hactive]; exact hfacts.2) (by rw [hactive]; exact hrest)
    refine ⟨last, calls1 ++ calls, ?_, ?_⟩
    · simp only [List.map_cons, ct.Decal.syncAll, hsync, hall]
    · have hm : methods (calls1 ++ calls) = methods calls1 ++ methods calls := by
        simp [methods]
      rw [hm, neverAddedWhileRegistered_append, hfacts.1, hnever]
      rfl

/-- The re-registration of an inactive object breaks the registration state machine too:
a core-thread decal is initialized, deactivated by a sync with the `Active` flag, synced
once more while inactive with the `Everything` flag, reactivated by a sync with the
`Active` flag, and destroyed.  The trace is added, removed, removed, added, added,
removed. -/
theorem lifecycle_reregistered_inactive_adds_twice :
    Option.map methods
        ((ct.Decal.new none Vector2.ONE 10).lifecycle
          [⟨syncLayout ActorDirtyFlag.Active.toUINT32 Transform.IDENTITY false
              Vector2.ONE 10 none AABox.initial, 7⟩,
           ⟨syncLayout ActorDirtyFlag.Everything.toUINT32 Transform.IDENTITY false
              ⟨2, 3⟩ 10 none AABox.initial, 7⟩,
           ⟨syncLayout ActorDirtyFlag.Active.toUINT32 Transform.IDENTITY true
              ⟨2, 3⟩ 10 none AABox.initial, 7⟩]) =
      some [.notifyDecalAdded, .notifyDecalRemoved, .notifyDecalRemoved,
        .notifyDecalAdded, .notifyDecalAdded, .notifyDecalRemoved] ∧
    neverAddedWhileRegistered false
        [.notifyDecalAdded, .notifyDecalRemoved, .notifyDecalRemoved,
          .notifyDecalAdded, .notifyDecalAdded, .notifyDecalRemoved] = false := by
  refine ⟨?_, by decide⟩
  decide

/-- C5, as stated, fails: a core-thread decal is initialized, receives a sync with dirty
flags exactly `Transform` and active state false (no renderer call), then a sync with the
`Active` flag and active state true, and is destroyed.  The trace is added, added,
removed: the second added notification arrives while the object is Registered. -/
theorem lifecycle_transform_only_deactivation_adds_twice :
    Option.map methods
        ((ct.Decal.new none Vector2.ONE 10).lifecycle
          [⟨syncLayout ActorDirtyFlag.Transform.toUINT32 Transform.IDENTITY false
              Vector2.ONE 10 none AABox.initial, 7⟩,
           ⟨syncLayout ActorDirtyFlag.Active.toUINT32 Transform.IDENTITY true
              Vector2.ONE 10 none AABox.initial, 7⟩]) =
      some [.notifyDecalAdded, .notifyDecalAdded, .notifyDecalRemoved] ∧
    neverAddedWhileRegistered false
        [.notifyDecalAdded, .notifyDecalAdded, .notifyDecalRemoved] = false := by
  refine ⟨?_, by decide⟩
  decide

/-- C5, amended: for a core-thread decal that is active when it is initialized, the trace
of `initialize`, then any number of well-formed syncs among which no sync with dirty flags
exactly `Transform` deactivates the active object and no sync with other dirty flags
reaches an object that is inactive and stays inactive, then the destructor, exists and
never has `notifyDecalAdded` while the object is Registered. -/
theorem lifecycle_never_adds_while_registered (self : ct.Decal) (syncs : List SyncValues)
    (hactive : self.mActive = true) (hkeep : keepsRegistration true syncs = true) :
    ∃ trace, self.lifecycle (syncs.map SyncValues.toData) = some trace ∧
      neverAddedWhileRegistered false (methods trace) = true := by
  have hstart : self.updateBounds.mActive = true := hactive
  obtain ⟨last, calls, hall, hnever⟩ :=
    syncAll_keepsRegistration syncs self.updateBounds true
      (by rw [hstart]; intro h; cases h) (by rw [hstart]; exact hkeep)
  refine ⟨[⟨.notifyDecalAdded, self.updateBounds⟩] ++ calls ++ last.destroy, ?_, ?_⟩
  · simp only [ct.Decal.lifecycle, ct.Decal.initialize, hall]
  · have hm : methods ([⟨.notifyDecalAdded, self.updateBounds⟩] ++ calls ++ last.destroy) =
        [.notifyDecalAdded] ++ (methods calls ++ [.notifyDecalRemoved]) := by
      simp [methods, ct.Decal.destroy]
    have hreg : registeredAfter false [.notifyDecalAdded] = true := rfl
    rw [hm, neverAddedWhileRegistered_append, neverAddedWhileRegistered_append, hreg,
      hnever]
    cases registeredAfter true (methods calls) <;> rfl

/-- C5 amended, at a concrete input: a new core-thread decal is deactivated and reactivated
with the `Active` flag, moved with the `Transform` flag and resized with the `Everything`
flag. -/
theorem lifecycle_never_adds_while_registered_witness :
    ((ct.Decal.new none Vector2.ONE 10).mActive = true ∧
      keepsRegistration true
        [⟨4, Transform.IDENTITY, false, Vector2.ONE, 10, none, AABox.initial⟩,
         ⟨4, Transform.IDENTITY, true, Vector2.ONE, 10, none, AABox.initial⟩,
         ⟨1, Transform.IDENTITY, true, Vector2.ONE, 10, none, AABox.initial⟩,
         ⟨8, Transform.IDENTITY, true, ⟨2, 3⟩, 10, none, AABox.initial⟩] = true) ∧
    ∃ trace,
      (ct.Decal.new none Vector2.ONE 10).lifecycle
          (List.map SyncValues.toData
            [⟨4, Transform.IDENTITY, false, Vector2.ONE, 10, none, AABox.initial⟩,
             ⟨4, Transform.IDENTITY, true, Vector2.ONE, 10, none, AABox.initial⟩,
             ⟨1, Transform.IDENTITY, true, Vector2.ONE, 10, none, AABox.initial⟩,
             ⟨8, Transform.IDENTITY, true, ⟨2, 3⟩, 10, none, AABox.initial⟩]) =
        some trace ∧
      neverAddedWhileRegistered false (methods trace) = true :=
  ⟨⟨rfl, by decide⟩,
    lifecycle_never_adds_while_registered (ct.Decal.new none Vector2.ONE 10) _ rfl
      (by decide)⟩

/-! ## Bounds -/

/-- Folding the component-wise minimum over a list gives a point below the start point and
below every point of the list, in each coordinate. -/
theorem foldl_min_le (ps : List Vector3) (q : Vector3) :
    ((ps.foldl Vector3.min q).x ≤ q.x ∧ (ps.foldl Vector3.min q).y ≤ q.y ∧
      (ps.foldl Vector3.min q).z ≤ q.z) ∧
    ∀ p ∈ ps, (ps.foldl Vector3.min q).x ≤ p.x ∧ (ps.foldl Vector3.min q).y ≤ p.y ∧
      (ps.foldl Vector3.min q).z ≤ p.z := by
  induction ps generalizing q with
  | nil => simp
  | cons a ps ih =>
    obtain ⟨⟨hx, hy, hz⟩, hmem⟩ := ih (Vector3.min q a)
    simp only [List.foldl_cons]
    refine ⟨⟨le_trans hx (min_le_left _ _), le_trans hy (min_le_left _ _),
      le_trans hz (min_le_left _ _)⟩, ?_⟩
    intro p hp
    rcases List.mem_cons.mp hp with rfl | hp
    · exact ⟨le_trans hx (min_le_right _ _), le_trans hy (min_le_right _ _),
        le_trans hz (min_le_right _ _)⟩
    · exact hmem p hp

/-- Folding the component-wise maximum over a list gives a point above the start point and
above every point of the list, in each coordinate. -/
theorem le_foldl_max (ps : List Vector3) (q : Vector3) :
    (q.x ≤ (ps.foldl Vector3.max q).x ∧ q.y ≤ (ps.foldl Vector3.max q).y ∧
      q.z ≤ (ps.foldl Vector3.max q).z) ∧
    ∀ p ∈ ps, p.x ≤ (ps.foldl Vector3.max q).x ∧ p.y ≤ (ps.foldl Vector3.max q).y ∧
      p.z ≤ (ps.foldl Vector3.max q).z := by
  induction ps generalizing q with
  | nil => simp
  | cons a ps ih =>
    obtain ⟨⟨hx, hy, hz⟩, hmem⟩ := ih (Vector3.max q a)
    simp only [List.foldl_cons]
    refine ⟨⟨le_trans (le_max_left _ _) hx, le_trans (le_max_left _ _) hy,
      le_trans (le_max_left _ _) hz⟩, ?_⟩
    intro p hp
    rcases List.mem_cons.mp hp with rfl | hp
    · exact ⟨le_trans (le_max_right _ _) hx, le_trans (le_max_right _ _) hy,
        le_trans (le_max_right _ _) hz⟩
    · exact hmem p hp

/-- The box around a list of points contains each of them. -/
theorem AABox.around_contains (q : Vector3) (ps : List Vector3) (p : Vector3)
    (hp : p ∈ q :: ps) : (AABox.around q ps).contains p := by
  obtain ⟨⟨hx, hy, hz⟩, hmem⟩ := foldl_min_le ps q
  obtain ⟨⟨kx, ky, kz⟩, kmem⟩ := le_foldl_max ps q
  rcases List.mem_cons.mp hp with rfl | hp
  · exact ⟨⟨hx, kx⟩, ⟨hy, ky⟩, ⟨hz, kz⟩⟩
  · obtain ⟨hx, hy, hz⟩ := hmem p hp
    obtain ⟨kx, ky, kz⟩ := kmem p hp
    exact ⟨⟨hx, kx⟩, ⟨hy, ky⟩, ⟨hz, kz⟩⟩

/-- A transformed box contains the image of each corner of the box. -/
theorem AABox.transformAffine_contains (b : AABox) (m : Matrix4) (c : Vector3)
    (hc : c ∈ b.corners) : (b.transformAffine m).contains (m.multiplyAffine c) := by
  have himg : m.multiplyAffine c ∈ b.corners.map m.multiplyAffine :=
    List.mem_map_of_mem _ hc
  unfold AABox.transformAffine
  revert himg
  cases b.corners.map m.multiplyAffine with
  | nil => intro himg; cases himg
  | cons q ps => intro himg; exact AABox.around_contains q ps _ himg

/-- C7: for every size `(sx, sy)`, every maximum distance `d` and every transform, the
bounds `DecalBase::updateBounds` stores contain the image under the transform matrix of
each of the eight corners `(±sx, ±sy, 0)` and `(±sx, ±sy, d)` of the local projection
volume; `px`, `py` pick the sign and `far` picks the plane. -/
theorem updateBounds_contains_corners (self : DecalBase) (px py far : Bool) :
    self.updateBounds.mBounds.contains
      (self.mTransform.getMatrix.multiplyAffine
        ⟨if px then self.mSize.x else -self.mSize.x,
         if py then self.mSize.y else -self.mSize.y,
         if far then self.mMaxDistance else 0⟩) := by
  unfold DecalBase.updateBounds
  apply AABox.transformAffine_contains
  cases px <;> cases py <;> cases far <;> simp [AABox.corners]

/-- The bounds are current after construction, after `setSize`, after `setMaxDistance` and
after a core-thread sync (whatever bounds the buffer carried), and `setMaterial` keeps
current bounds current. -/
theorem bounds_current_where_recomputed :
    (∀ material size maxDistance flags,
      (Decal.new material size maxDistance flags).mBounds =
        boundsOf size maxDistance Transform.IDENTITY) ∧
    (∀ material size maxDistance,
      (ct.Decal.new material size maxDistance).mBounds =
        boundsOf size maxDistance Transform.IDENTITY) ∧
    (∀ (self : Decal) size,
      (self.setSize size).mBounds = boundsOf size self.mMaxDistance self.mTransform) ∧
    (∀ (self : Decal) distance,
      (self.setMaxDistance distance).mBounds =
        boundsOf self.mSize distance self.mTransform) ∧
    (∀ (self : Decal) material,
      (self.setMaterial material).mBounds = self.mBounds ∧
      (self.setMaterial material).mSize = self.mSize ∧
      (self.setMaterial material).mMaxDistance = self.mMaxDistance ∧
      (self.setMaterial material).mTransform = self.mTransform) ∧
    (∀ (self : ct.Decal) transform active size maxDistance material,
      (self.synced transform active size maxDistance material).mBounds =
        boundsOf size maxDistance transform) :=
  ⟨fun _ _ _ _ => rfl, fun _ _ _ => rfl, fun _ _ => rfl, fun _ _ => rfl,
    fun _ _ => ⟨rfl, rfl, rfl, rfl⟩, fun _ _ _ _ _ _ => rfl⟩

/-- C8, the code at the failing input: a new sim-thread decal of size `(1, 1)` and maximum
distance `10` has its transform changed to a translation by `5` along x.  The stored
bounds stay the box from `(-1, -1, 0)` to `(1, 1, 10)`, while the bounds function of the
current size, maximum distance and transform is the box from `(4, -1, 0)` to
`(6, 1, 10)`. -/
theorem setTransform_leaves_bounds_stale :
    ((Decal.new ⟨false, none⟩ Vector2.ONE 10 0).setTransform
        ⟨Vector3.ONE, ⟨1, 0, 0, 5, 0, 1, 0, 0, 0, 0, 1, 0⟩⟩).mBounds =
      ⟨⟨-1, -1, 0⟩, ⟨1, 1, 10⟩⟩ ∧
    boundsOf
        ((Decal.new ⟨false, none⟩ Vector2.ONE 10 0).setTransform
          ⟨Vector3.ONE, ⟨1, 0, 0, 5, 0, 1, 0, 0, 0, 0, 1, 0⟩⟩).mSize
        ((Decal.new ⟨false, none⟩ Vector2.ONE 10 0).setTransform
          ⟨Vector3.ONE, ⟨1, 0, 0, 5, 0, 1, 0, 0, 0, 0, 1, 0⟩⟩).mMaxDistance
        ((Decal.new ⟨false, none⟩ Vector2.ONE 10 0).setTransform
          ⟨Vector3.ONE, ⟨1, 0, 0, 5, 0, 1, 0, 0, 0, 0, 1, 0⟩⟩).mTransform =
      ⟨⟨4, -1, 0⟩, ⟨6, 1, 10⟩⟩ := by
  constructor
  · simp [Decal.setTransform, Decal._markCoreDirty, Decal.markCoreDirty, Decal.new,
      Decal.updateBounds, TDecal.new, DecalBase.new, DecalBase.updateBounds,
      AABox.transformAffine, AABox.corners, AABox.around, Matrix4.multiplyAffine,
      Vector3.min, Vector3.max, Transform.IDENTITY, Matrix4.IDENTITY, Vector2.ONE,
      min_def, max_def]
  · simp [Decal.setTransform, Decal._markCoreDirty, Decal.markCoreDirty, Decal.new,
      Decal.updateBounds, TDecal.new, DecalBase.new, boundsOf,
      DecalBase.updateBounds, AABox.transformAffine, AABox.corners, AABox.around,
      Matrix4.multiplyAffine, Vector3.min, Vector3.max, Vector2.ONE, min_def, max_def]
    norm_num

/-! ## Creation, destruction and the round trip -/

/-- C9: destroying a core-thread decal makes exactly one renderer call,
`notifyDecalRemoved`, in every state of the object (no earlier `initialize` is required),
and `initialize` makes exactly one renderer call, `notifyDecalAdded`, on the object with
its bounds recomputed from its size, maximum distance and transform. -/
theorem destroy_and_initialize_notifications (self : ct.Decal) :
    self.destroy = [⟨.notifyDecalRemoved, self⟩] ∧
    ct.Decal.initialize self =
      (self.updateBounds, [⟨.notifyDecalAdded, self.updateBounds⟩]) ∧
    self.updateBounds.mBounds = boundsOf self.mSize self.mMaxDistance self.mTransform ∧
    ∀ material size maxDistance,
      methods (ct.Decal.new material size maxDistance).destroy = [.notifyDecalRemoved] :=
  ⟨rfl, rfl, rfl, fun _ _ _ => rfl⟩

/-- C10: for every sim-thread decal, `createCore` returns a core-thread decal whose size
and maximum distance are the stored (unscaled) size and maximum distance of the sim-thread
decal, and whose material is the core form of the handle when the handle is loaded and
null when it is not. -/
theorem createCore_copies_resolved_fields (self : Decal) :
    self.createCore.mSize = self.mSize ∧
    self.createCore.mMaxDistance = self.mMaxDistance ∧
    self.createCore.mMaterial =
      (if self.mMaterial.isLoaded = true then self.mMaterial.getCore else none) :=
  ⟨rfl, rfl, rfl⟩

/-- C6, as stated, fails: a sim-thread decal of size `(1, 1)` and maximum distance `10`
whose transform is a translation by `5` along x and whose stored bounds are the box from
`(-1, -1, 0)` to `(1, 1, 10)` is synced into a core-thread decal.  The core-thread decal
ends with the recomputed bounds, the box from `(4, -1, 0)` to `(6, 1, 10)`, not with the
bounds of the source.  The source state is the state of a new decal after
`setTransform`. -/
theorem sync_bounds_recomputed_not_copied :
    ({ mTransform := ⟨Vector3.ONE, ⟨1, 0, 0, 5, 0, 1, 0, 0, 0, 0, 1, 0⟩⟩,
       mSize := ⟨1, 1⟩, mMaxDistance := 10, mBounds := ⟨⟨-1, -1, 0⟩, ⟨1, 1, 10⟩⟩,
       mMaterial := ⟨false, none⟩, mCoreDirtyFlags := 1 } : Decal).mBounds =
      ⟨⟨-1, -1, 0⟩, ⟨1, 1, 10⟩⟩ ∧
    Option.map (fun r => r.1.mBounds)
        ((ct.Decal.new none Vector2.ONE 10).syncToCore
          ({ mTransform := ⟨Vector3.ONE, ⟨1, 0, 0, 5, 0, 1, 0, 0, 0, 0, 1, 0⟩⟩,
             mSize := ⟨1, 1⟩, mMaxDistance := 10, mBounds := ⟨⟨-1, -1, 0⟩, ⟨1, 1, 10⟩⟩,
             mMaterial := ⟨false, none⟩, mCoreDirtyFlags := 1 } : Decal).syncToCore) =
      some ⟨⟨4, -1, 0⟩, ⟨6, 1, 10⟩⟩ ∧
    (Decal.new ⟨false, none⟩ Vector2.ONE 10 0).setTransform
        ⟨Vector3.ONE, ⟨1, 0, 0, 5, 0, 1, 0, 0, 0, 0, 1, 0⟩⟩ =
      { mTransform := ⟨Vector3.ONE, ⟨1, 0, 0, 5, 0, 1, 0, 0, 0, 0, 1, 0⟩⟩,
        mSize := ⟨1, 1⟩, mMaxDistance := 10, mBounds := ⟨⟨-1, -1, 0⟩, ⟨1, 1, 10⟩⟩,
        mMaterial := ⟨false, none⟩, mCoreDirtyFlags := 1 } := by
  refine ⟨rfl, ?_, ?_⟩
  · rw [ct.Decal.syncToCore_syncLayout _ _ _ _ _ _ _ _ _ (Decal.syncToCore_getBuffer _)]
    simp [ct.Decal.synced, ct.Decal.updateBounds, DecalBase.updateBounds,
      AABox.transformAffine, AABox.corners, AABox.around, Matrix4.multiplyAffine,
      Vector3.min, Vector3.max, min_def, max_def]
    norm_num
  · simp [Decal.setTransform, Decal._markCoreDirty, Decal.markCoreDirty, Decal.new,
      Decal.updateBounds, TDecal.new, DecalBase.new, DecalBase.updateBounds,
      AABox.transformAffine, AABox.corners, AABox.around, Matrix4.multiplyAffine,
      Vector3.min, Vector3.max, Transform.IDENTITY, Matrix4.IDENTITY, Vector2.ONE,
      ActorDirtyFlag.toUINT32, min_def, max_def]

/-- C6, amended: for every sim-thread decal state and every dirty-flags value, applying
`ct::Decal::syncToCore` to the buffer `bs::Decal::syncToCore` returns has a result, and
leaves the core-thread decal with the size and maximum distance of the source, the
resolved form of the source's material, and the bounds function applied to the source's
size, maximum distance and transform. -/
theorem sync_roundtrip_fields (sim : Decal) (core : ct.Decal) :
    ∃ after calls, core.syncToCore sim.syncToCore = some (after, calls) ∧
      after.mSize = sim.mSize ∧
      after.mMaxDistance = sim.mMaxDistance ∧
      after.mMaterial = sim.mMaterial.resolve ∧
      after.mBounds = boundsOf sim.mSize sim.mMaxDistance sim.mTransform := by
  rw [ct.Decal.syncToCore_syncLayout core _ _ _ _ _ _ _ _ (Decal.syncToCore_getBuffer sim)]
  exact ⟨_, _, rfl, rfl, rfl, rfl, rfl⟩

/-! ## Accessors and mutators -/

/-- C11: for every decal, `getSize` returns the stored size multiplied component-wise by
the x and y scale of the transform and `getMaxDistance` returns the stored maximum
distance multiplied by the z scale; so on a sim-thread decal whose transform scale is
`(1, 1, 1)`, `getSize` after `setSize(s)` returns `s` and `getMaxDistance` after
`setMaxDistance(d)` returns `d`. -/
theorem getSize_getMaxDistance_apply_scale (self : Decal) (size : Vector2) (distance : ℚ)
    (hscale : self.mTransform.getScale = ⟨1, 1, 1⟩) :
    (∀ base : DecalBase,
      base.getSize =
        ⟨base.mSize.x * base.mTransform.getScale.x,
         base.mSize.y * base.mTransform.getScale.y⟩ ∧
      base.getMaxDistance = base.mMaxDistance * base.mTransform.getScale.z) ∧
    (self.setSize size).getSize = size ∧
    (self.setMaxDistance distance).getMaxDistance = distance := by
  refine ⟨fun _ => ⟨rfl, rfl⟩, ?_, ?_⟩
  · have h : (self.setSize size).mTransform.getScale = ⟨1, 1, 1⟩ := hscale
    have hs : (self.setSize size).mSize = size := rfl
    simp [DecalBase.getSize, h, hs]
  · have h : (self.setMaxDistance distance).mTransform.getScale = ⟨1, 1, 1⟩ := hscale
    have hs : (self.setMaxDistance distance).mMaxDistance = distance := rfl
    simp [DecalBase.getMaxDistance, h, hs]

/-- C11, at a concrete input: a new sim-thread decal (identity transform, scale
`(1, 1, 1)`) is resized to `(2, 3)` and its maximum distance set to `5`. -/
theorem getSize_getMaxDistance_apply_scale_witness :
    (Decal.new ⟨false, none⟩ Vector2.ONE 10 0).mTransform.getScale = ⟨1, 1, 1⟩ ∧
    ((Decal.new ⟨false, none⟩ Vector2.ONE 10 0).setSize ⟨2, 3⟩).getSize = ⟨2, 3⟩ ∧
    ((Decal.new ⟨false, none⟩ Vector2.ONE 10 0).setMaxDistance 5).getMaxDistance = 5 :=
  ⟨rfl,
    (getSize_getMaxDistance_apply_scale (Decal.new ⟨false, none⟩ Vector2.ONE 10 0)
      ⟨2, 3⟩ 5 rfl).2⟩

/-- The core-dirty flags after `Everything` was marked include `Everything`. -/
theorem or_everything_includes (flags : Nat) :
    (flags ||| ActorDirtyFlag.Everything.toUINT32) % 2 ^ 32 &&&
      ActorDirtyFlag.Everything.toUINT32 = ActorDirtyFlag.Everything.toUINT32 := by
  have h8 : ActorDirtyFlag.Everything.toUINT32 = 2 ^ 3 := rfl
  rw [h8]
  apply Nat.eq_of_testBit_eq
  intro i
  simp only [Nat.testBit_and, Nat.testBit_mod_two_pow, Nat.testBit_or, Nat.testBit_two_pow]
  by_cases hi : 3 = i
  · subst hi
    simp
  · simp [hi]

/-- C15: on a sim-thread decal each of `setSize`, `setMaxDistance` and `setMaterial`
stores its argument in its field, leaves the other two of size, maximum distance and
material and the transform as they were, and leaves `Everything` set in the core-dirty
flags; `setSize` and `setMaxDistance` store the recomputed bounds, `setMaterial` leaves
the bounds as they were. -/
theorem mutators_frame (self : Decal) (size : Vector2) (distance : ℚ)
    (material : HMaterial) :
    ((self.setSize size).mSize = size ∧
      (self.setSize size).mMaxDistance = self.mMaxDistance ∧
      (self.setSize size).mMaterial = self.mMaterial ∧
      (self.setSize size).mTransform = self.mTransform ∧
      (self.setSize size).mCoreDirtyFlags &&& ActorDirtyFlag.Everything.toUINT32 =
        ActorDirtyFlag.Everything.toUINT32 ∧
      (self.setSize size).mBounds = boundsOf size self.mMaxDistance self.mTransform) ∧
    ((self.setMaxDistance distance).mMaxDistance = distance ∧
      (self.setMaxDistance distance).mSize = self.mSize ∧
      (self.setMaxDistance distance).mMaterial = self.mMaterial ∧
      (self.setMaxDistance distance).mTransform = self.mTransform ∧
      (self.setMaxDistance distance).mCoreDirtyFlags &&&
          ActorDirtyFlag.Everything.toUINT32 = ActorDirtyFlag.Everything.toUINT32 ∧
      (self.setMaxDistance distance).mBounds =
        boundsOf self.mSize distance self.mTransform) ∧
    ((self.setMaterial material).mMaterial = material ∧
      (self.setMaterial material).mSize = self.mSize ∧
      (self.setMaterial material).mMaxDistance = self.mMaxDistance ∧
      (self.setMaterial material).mTransform = self.mTransform ∧
      (self.setMaterial material).mCoreDirtyFlags &&&
          ActorDirtyFlag.Everything.toUINT32 = ActorDirtyFlag.Everything.toUINT32 ∧
      (self.setMaterial material).mBounds = self.mBounds) :=
  ⟨⟨rfl, rfl, rfl, rfl, or_everything_includes self.mCoreDirtyFlags, rfl⟩,
   ⟨rfl, rfl, rfl, rfl, or_everything_includes self.mCoreDirtyFlags, rfl⟩,
   ⟨rfl, rfl, rfl, rfl, or_everything_includes self.mCoreDirtyFlags, rfl⟩⟩

/-! ## Direction of the bounds -/

/-- Under the identity transform the bounds of a decal with a positive maximum distance
`d` do not reach the point `(0, 0, -d)`, whatever the size. -/
theorem boundsOf_identity_excludes_negative_z (size : Vector2) (d : ℚ) (hd : 0 < d) :
    ¬ (boundsOf size d Transform.IDENTITY).contains ⟨0, 0, -d⟩ := by
  intro h
  have hz := h.2.2.1
  simp [boundsOf, DecalBase.updateBounds, AABox.transformAffine, AABox.corners,
    AABox.around, Matrix4.multiplyAffine, Vector3.min, Vector3.max, Transform.IDENTITY,
    Matrix4.IDENTITY] at hz
  linarith

/-- C12, the code at the failing input: a new sim-thread decal of size `(1, 1)` and maximum
distance `10` has the identity transform, and `updateBounds` stored the box from
`(-1, -1, 0)` to `(1, 1, 10)`: it contains `(0, 0, 10)` on the positive Z axis and does
not contain `(0, 0, -10)` on the negative Z axis. -/
theorem updateBounds_extends_along_positive_z :
    (Decal.new ⟨false, none⟩ ⟨1, 1⟩ 10 0).mTransform = Transform.IDENTITY ∧
    (Decal.new ⟨false, none⟩ ⟨1, 1⟩ 10 0).mBounds = ⟨⟨-1, -1, 0⟩, ⟨1, 1, 10⟩⟩ ∧
    (Decal.new ⟨false, none⟩ ⟨1, 1⟩ 10 0).mBounds.contains ⟨0, 0, 10⟩ ∧
    ¬ (Decal.new ⟨false, none⟩ ⟨1, 1⟩ 10 0).mBounds.contains ⟨0, 0, -10⟩ := by
  have hb : (Decal.new ⟨false, none⟩ ⟨1, 1⟩ 10 0).mBounds =
      ⟨⟨-1, -1, 0⟩, ⟨1, 1, 10⟩⟩ := by
    simp [Decal.new, Decal.updateBounds, TDecal.new, DecalBase.new,
      DecalBase.updateBounds, AABox.transformAffine, AABox.corners, AABox.around,
      Matrix4.multiplyAffine, Vector3.min, Vector3.max, Transform.IDENTITY,
      Matrix4.IDENTITY, min_def, max_def]
  refine ⟨rfl, hb, ?_, ?_⟩
  · rw [hb]
    simp [AABox.contains]
  · rw [hb]
    simp [AABox.contains]

/-! ## Texture import options -/

/-- C13: `TextureImportOptions::create` returns a pointer to a new object whose fields hold
the defaults (format `PF_RGBA8`, no mip generation, maximum mip `0`, not CPU cached, not
sRGB, not a cubemap, cubemap source type `Faces`); a second call returns another pointer,
both objects hold the defaults, and replacing the object behind one pointer by any
changed value leaves the object behind the other at the defaults. -/
theorem create_returns_independent_defaults (store : List TextureImportOptions)
    (changed : TextureImportOptions) :
    TextureImportOptions.new =
      ⟨.PF_RGBA8, false, 0, false, false, false, .Faces⟩ ∧
    (TextureImportOptions.create store).2[(TextureImportOptions.create store).1]? =
      some TextureImportOptions.new ∧
    (TextureImportOptions.create store).1 ≠
      (TextureImportOptions.create (TextureImportOptions.create store).2).1 ∧
    (TextureImportOptions.create (TextureImportOptions.create store).2).2[
        (TextureImportOptions.create store).1]? = some TextureImportOptions.new ∧
    (TextureImportOptions.create (TextureImportOptions.create store).2).2[
        (TextureImportOptions.create (TextureImportOptions.create store).2).1]? =
      some TextureImportOptions.new ∧
    ((TextureImportOptions.create (TextureImportOptions.create store).2).2.set
        (TextureImportOptions.create store).1 changed)[
        (TextureImportOptions.create (TextureImportOptions.create store).2).1]? =
      some TextureImportOptions.new ∧
    ((TextureImportOptions.create (TextureImportOptions.create store).2).2.set
        (TextureImportOptions.create (TextureImportOptions.create store).2).1 changed)[
        (TextureImportOptions.create store).1]? =
      some TextureImportOptions.new := by
  refine ⟨rfl, ?_, ?_, ?_, ?_, ?_, ?_⟩ <;>
    simp [TextureImportOptions.create, bs_shared_ptr_new, List.getElem?_append_right,
      List.getElem?_set, List.getElem_append_right]

/-! ## Layout of the sync buffer -/

/-- The core-thread sync is its reads followed by `updateBounds` and the three-way branch
on the dirty flags read and the active state before and after. -/
theorem ct.Decal.syncToCore_eq_read (self : ct.Decal) (data : CoreSyncData) :
    self.syncToCore data =
      match self.syncToCoreRead data with
      | none => none
      | some (dirtyFlags, read, _) =>
        if dirtyFlags = ActorDirtyFlag.Transform.toUINT32 then
          if read.updateBounds.mActive then
            some (read.updateBounds, [⟨.notifyDecalUpdated, read.updateBounds⟩])
          else
            some (read.updateBounds, [])
        else
          if self.mActive ≠ read.updateBounds.mActive then
            if read.updateBounds.mActive then
              some (read.updateBounds, [⟨.notifyDecalAdded, read.updateBounds⟩])
            else
              some (read.updateBounds, [⟨.notifyDecalRemoved, read.updateBounds⟩])
          else
            some (read.updateBounds,
              [⟨.notifyDecalRemoved, read.updateBounds⟩,
               ⟨.notifyDecalAdded, read.updateBounds⟩]) := by
  unfold ct.Decal.syncToCore ct.Decal.syncToCoreRead
  dsimp only
  rcases h1 : rttiReadElem data.getBuffer with _ | ⟨dirtyFlags, p1⟩
  · rfl
  · dsimp only
    rcases h2 : coreSyncReadElem SceneActor.setField SceneActor.rttiEnumFields
        self.toSceneActor p1 with _ | ⟨actor, p2⟩
    · rfl
    · dsimp only
      rcases h3 : coreSyncReadElem ct.Decal.setField TDecal.rttiEnumFields
          ({ self with toSceneActor := actor } : ct.Decal) p2 with _ | ⟨read, p3⟩
      · rfl
      · rfl

/-- C14: `bs::Decal::syncToCore` computes the buffer length as the size of the dirty flags
plus the size of the `SceneActor` fields plus the size of the decal fields (size, maximum
distance, material, bounds), writes the dirty flags, then the `SceneActor` fields, then
the decal fields, in that order, and the cells written are exactly as many as the computed
length.  The reads of `ct::Decal::syncToCore` take the same three groups in the same
order: on the written buffer every read has a result and each field receives the value
written for it, the cursor after the last read stands at the end of the buffer, and cells
beyond the written ones, if there were any, are left unread. -/
theorem sync_write_read_layout_agree (sim : Decal) (core : ct.Decal)
    (beyond : List SyncElem) (n : Nat) :
    sim.syncToCore.getBufferSize =
      rttiGetElemSize (.u32 sim.getCoreDirtyFlags) +
        coreSyncGetElemSize SceneActor.rttiEnumFields SceneActor.getField
          sim.toSceneActor +
        coreSyncGetElemSize TDecal.rttiEnumFields Decal.getField sim ∧
    sim.syncToCore.getBuffer =
      [.u32 sim.getCoreDirtyFlags] ++
        SceneActor.rttiEnumFields.map (SceneActor.getField sim.toSceneActor) ++
        TDecal.rttiEnumFields.map (Decal.getField sim) ∧
    sim.syncToCore.getBuffer.length = sim.syncToCore.getBufferSize ∧
    core.syncToCoreRead sim.syncToCore =
      some (sim.getCoreDirtyFlags,
        { core with mTransform := sim.mTransform, mActive := sim.mActive,
                    mSize := sim.mSize, mMaxDistance := sim.mMaxDistance,
                    mMaterial := sim.mMaterial.resolve, mBounds := sim.mBounds },
        []) ∧
    core.syncToCoreRead ⟨sim.syncToCore.getBuffer ++ beyond, n⟩ =
      some (sim.getCoreDirtyFlags,
        { core with mTransform := sim.mTransform, mActive := sim.mActive,
                    mSize := sim.mSize, mMaxDistance := sim.mMaxDistance,
                    mMaterial := sim.mMaterial.resolve, mBounds := sim.mBounds },
        beyond) ∧
    ∃ calls, core.syncToCore sim.syncToCore =
      some (ct.Decal.updateBounds
          { core with mTransform := sim.mTransform, mActive := sim.mActive,
                      mSize := sim.mSize, mMaxDistance := sim.mMaxDistance,
                      mMaterial := sim.mMaterial.resolve, mBounds := sim.mBounds },
        calls) := by
  refine ⟨?_, rfl, rfl, rfl, rfl, ?_⟩
  · simp [Decal.syncToCore]
  · rw [ct.Decal.syncToCore_syncLayout core _ _ _ _ _ _ _ _
      (Decal.syncToCore_getBuffer sim)]
    exact ⟨_, rfl⟩

/-! ## The notifications as a function -/

/-- C16: the notifications `ct::Decal::syncToCore` makes are a function of the dirty flags,
the active state before the sync and the active state after it, and of nothing else: on
every well-formed buffer the sync has a result, it makes at most two renderer calls, and
it makes none exactly when the dirty flags are exactly `ActorDirtyFlag::Transform` and the
object is inactive after the sync. -/
theorem syncToCore_notifications_function :
    ∃ f : Nat → Bool → Bool → List RendererNotification,
      ∀ (self : ct.Decal) (v : SyncValues),
        ∃ calls,
          self.syncToCore v.toData =
            some (self.synced v.transform v.active v.size v.maxDistance v.material,
              calls) ∧
          methods calls = f v.dirtyFlags self.mActive v.active ∧
          calls.length ≤ 2 ∧
          (calls = [] ↔
            (v.dirtyFlags = ActorDirtyFlag.Transform.toUINT32 ∧ v.active = false)) := by
  refine ⟨fun dirtyFlags oldIsActive active =>
    if dirtyFlags = 1 then
      if active = true then [.notifyDecalUpdated] else []
    else if oldIsActive ≠ active then
      if active = true then [.notifyDecalAdded] else [.notifyDecalRemoved]
    else [.notifyDecalRemoved, .notifyDecalAdded], ?_⟩
  intro self v
  refine ⟨_, ct.Decal.syncToCore_syncLayout self v.toData v.dirtyFlags v.transform
    v.active v.size v.maxDistance v.material v.bounds rfl, ?_, ?_, ?_⟩
  · dsimp only
    split_ifs <;> rfl
  · split_ifs <;> simp
  · have h1 : ActorDirtyFlag.Transform.toUINT32 = 1 := rfl
    rw [h1]
    split_ifs <;> simp_all

end bs
